import Mathlib

/-!
Verification development for the mamo-compounder engine.

The definitions below are a shallow embedding of the decision logic of the
repository's source files:

* `determineBestSplit` / `determineBestSplitPct` embed the two variants of
  `determineBestSplit` in `src/utils/strategy-optimizer.ts` (10000-bps variant
  at lines 107-120, 100-denominator variant at lines 467-480).
* `processExistingPosition` / `processNewPosition` embed the two branches of
  `processStrategyOptimization` (first variant, lines 161-307): the steady
  state with a persisted Position and the first-run seeding path.  On-chain
  and database effects are represented by the `RunOutcome` record: the
  `updatePositionTx` field is the argument of the `updatePosition` contract
  write when one is issued, and `dbWrite` is the row written to the
  position store when one is written.  JavaScript numbers (APY percentages
  and USDC balances) are modelled as rationals, which is faithful for the
  orderings and exact decimal arithmetic the code performs on them.
* `rewardsUsd` / `rewardsUsdValue` embed the arithmetic of
  `calculateTokenPriceInUsd` in `src/utils/cow-swap.ts` (lines 38-75);
  amounts and oracle readings are BigInt in the source, modelled as `Int`.
* `claimRewardsProceeds` / `createSwapOrderProceeds` embed the threshold
  gates of `claimRewards` and `createSwapOrder` in the strategy-processor
  module.
* `encodeOrderValidity` embeds the outcome classification of
  `encodeOrderForSignature` in `src/utils/cow-swap.ts` (lines 154-220), and
  `buildOrderTuple` its order-record construction (lines 110-150).
* `cronOrderSellAmount` and `indexSellAmountAfterFee` embed the two fee
  subtraction paths (`cron.ts` lines 669-679 and `src/index.ts` lines
  543-548).
-/

/-- Magic value returned by EIP-1271 `isValidSignature` on acceptance,
from `src/constants.ts`. -/
def MAGIC_VALUE : String := "0x1626ba7e"

/-- Order-kind constant for SELL orders, from `src/constants.ts`. -/
def KIND_SELL : String := "0xf3b277728b3fee749481eb3e0b3b48980dbbab78658fc419025cb16eee346775"

/-- Balance-location constant for ERC20 balances, from `src/constants.ts`. -/
def ERC20_BALANCE : String := "0x5a28e9363bb942b639270062aa6bb295f434bcdfc42c97267bf003f272060dc9"

/-- Best split in basis points, from `determineBestSplit` in
`src/utils/strategy-optimizer.ts` lines 107-120: all to mToken when the
market APY is strictly better, all to the vault when the vault APY is
strictly better, 50/50 when equal. -/
def determineBestSplit (marketAPY vaultAPY : ℚ) : ℕ × ℕ :=
  if marketAPY > vaultAPY then (10000, 0)
  else if vaultAPY > marketAPY then (0, 10000)
  else (5000, 5000)

/-- Best split on the 100 denominator, from the second variant of
`determineBestSplit` in `src/utils/strategy-optimizer.ts` lines 467-480. -/
def determineBestSplitPct (marketAPY vaultAPY : ℚ) : ℕ × ℕ :=
  if marketAPY > vaultAPY then (100, 0)
  else if vaultAPY > marketAPY then (0, 100)
  else (50, 50)

/-- APY reading handed to the optimizer, from the `APYData` interface in
`src/utils/strategy-optimizer.ts`. -/
structure APYData where
  marketAPY : ℚ
  vaultAPY : ℚ
  bestAPY : ℚ
deriving Repr, DecidableEq

/-- APY data as assembled by `getAPYData`: the best APY is the maximum of
the market and vault readings. -/
def mkAPYData (marketAPY vaultAPY : ℚ) : APYData :=
  { marketAPY := marketAPY, vaultAPY := vaultAPY, bestAPY := max marketAPY vaultAPY }

/-- Persisted position row, from the `Position` interface in
`src/utils/database.ts`; `last_updated` is an abstract timestamp. -/
structure Position where
  split_mtoken : ℕ
  split_vault : ℕ
  strategy_type : String
  apy : ℚ
  last_updated : ℕ
deriving Repr, DecidableEq

/-- Observable outcome of one optimizer run for one strategy:
`updatePositionTx` holds the `(splitMToken, splitVault)` argument of the
`updatePosition` contract write when one is issued, and `dbWrite` the row
written to the position store when one is written. -/
structure RunOutcome where
  updatePositionTx : Option (ℕ × ℕ)
  dbWrite : Option Position
deriving Repr, DecidableEq

/-- Fixed APY improvement threshold, from `minImprovementThreshold = 1.0`
in `processStrategyOptimization`. -/
def minImprovementThreshold : ℚ := 1

/-- Dust threshold implied by the balance gate `usdcBalance > 0` in
`processStrategyOptimization`: any strictly positive USDC balance passes. -/
def dustThreshold : ℚ := 0

/-- Steady-state branch of `processStrategyOptimization`
(`src/utils/strategy-optimizer.ts` lines 227-302, first variant): with an
existing persisted position, compute the best split and the APY
improvement; when the improvement reaches the threshold and the persisted
split differs from the best split, fetch the USDC balance, issue the
`updatePosition` write when it is positive, and persist the refreshed row
(with the new split only when the write was issued); otherwise leave both
the chain and the database untouched. -/
def processExistingPosition (existing : Position) (apyData : APYData)
    (usdcBalance : ℚ) (now : ℕ) : RunOutcome :=
  let bestSplit := determineBestSplit apyData.marketAPY apyData.vaultAPY
  let apyImprovement := apyData.bestAPY - existing.apy
  let updatedPosition := { existing with apy := apyData.bestAPY, last_updated := now }
  if apyImprovement ≥ minImprovementThreshold ∧
      ¬(existing.split_mtoken = bestSplit.1 ∧ existing.split_vault = bestSplit.2) then
    if usdcBalance > dustThreshold then
      { updatePositionTx := some bestSplit,
        dbWrite := some { updatedPosition with
          split_mtoken := bestSplit.1, split_vault := bestSplit.2 } }
    else
      { updatePositionTx := none, dbWrite := some updatedPosition }
  else
    { updatePositionTx := none, dbWrite := none }

/-- First-run branch of `processStrategyOptimization`
(`src/utils/strategy-optimizer.ts` lines 176-225, first variant): with no
persisted position, seed a row from the live on-chain split with the best
APY; when the USDC balance is positive, issue the `updatePosition` write to
the best split (the computed `currentSplitMatchesBest` flag is never
consulted) and insert the row with the best split, otherwise insert the
seeded row unchanged. -/
def processNewPosition (currentSplit : ℕ × ℕ) (apyData : APYData)
    (usdcBalance : ℚ) (now : ℕ) : RunOutcome :=
  let bestSplit := determineBestSplit apyData.marketAPY apyData.vaultAPY
  let newPosition : Position :=
    { split_mtoken := currentSplit.1, split_vault := currentSplit.2,
      strategy_type := "usdc_stablecoin", apy := apyData.bestAPY, last_updated := now }
  if usdcBalance > dustThreshold then
    { updatePositionTx := some bestSplit,
      dbWrite := some { newPosition with
        split_mtoken := bestSplit.1, split_vault := bestSplit.2 } }
  else
    { updatePositionTx := none, dbWrite := some newPosition }

/-- C9: for every pair of APY readings, both variants of the best-split
function put everything on the strictly better side, split 50/50 on a tie,
and always sum to their deployment's denominator (10000 bps, and 100). -/
theorem determineBestSplit_spec (m v : ℚ) :
    ((m > v → determineBestSplit m v = (10000, 0) ∧ determineBestSplitPct m v = (100, 0)) ∧
     (v > m → determineBestSplit m v = (0, 10000) ∧ determineBestSplitPct m v = (0, 100)) ∧
     (m = v → determineBestSplit m v = (5000, 5000) ∧ determineBestSplitPct m v = (50, 50))) ∧
    (determineBestSplit m v).1 + (determineBestSplit m v).2 = 10000 ∧
    (determineBestSplitPct m v).1 + (determineBestSplitPct m v).2 = 100 := by
  unfold determineBestSplit determineBestSplitPct
  rcases lt_trichotomy m v with h | h | h
  · simp [h, not_lt.mpr h.le, h.ne, lt_irrefl]
  · simp [h]
  · simp [h, not_lt.mpr h.le, h.ne', lt_irrefl]

/-- Witness for `determineBestSplit_spec` at the market APY 3, vault APY 5
scenario from the spec. -/
theorem determineBestSplit_spec_witness :
    (5 : ℚ) > 3 ∧ determineBestSplit 3 5 = (0, 10000) ∧ determineBestSplitPct 3 5 = (0, 100) :=
  ⟨by norm_num, (determineBestSplit_spec 3 5).1.2.1 (by norm_num)⟩

/-- Sample persisted position used to instantiate the optimizer theorems:
split fully on the vault side at the bps denominator, stored APY 5. -/
def samplePosition : Position :=
  { split_mtoken := 0, split_vault := 10000, strategy_type := "usdc_stablecoin",
    apy := 5, last_updated := 0 }

/-- C2: with a persisted position, an `updatePosition` write is issued in a
run exactly when the APY improvement reaches the fixed 1.0 threshold, the
best split differs from the persisted split, and the USDC balance is above
the dust threshold; in particular, against a stored APY of 5.0 a best APY
of 5.5 does not trigger a rebalance and 6.0 does. -/
theorem rebalance_hysteresis_gate :
    (∀ (pos : Position) (a : APYData) (bal : ℚ) (now : ℕ),
      ((processExistingPosition pos a bal now).updatePositionTx).isSome = true ↔
        (minImprovementThreshold ≤ a.bestAPY - pos.apy ∧
         ¬(pos.split_mtoken = (determineBestSplit a.marketAPY a.vaultAPY).1 ∧
           pos.split_vault = (determineBestSplit a.marketAPY a.vaultAPY).2) ∧
         dustThreshold < bal)) ∧
    (processExistingPosition samplePosition (mkAPYData (11/2) 1) 100 1).updatePositionTx = none ∧
    (processExistingPosition samplePosition (mkAPYData 6 1) 100 1).updatePositionTx = some (10000, 0) := by
  refine ⟨?_, ?_, ?_⟩
  · intro pos a bal now
    unfold processExistingPosition
    by_cases hmain : a.bestAPY - pos.apy ≥ minImprovementThreshold ∧
        ¬(pos.split_mtoken = (determineBestSplit a.marketAPY a.vaultAPY).1 ∧
          pos.split_vault = (determineBestSplit a.marketAPY a.vaultAPY).2)
    · rw [if_pos hmain]
      by_cases hbal : bal > dustThreshold
      · rw [if_pos hbal]
        simp [hmain.1, hmain.2, hbal]
      · rw [if_neg hbal]
        simp [hbal]
    · rw [if_neg hmain]
      simp only [Option.isSome_none, Bool.false_eq_true, false_iff]
      rintro ⟨hA, hB, -⟩
      exact hmain ⟨hA, hB⟩
  · norm_num [processExistingPosition, samplePosition, mkAPYData, determineBestSplit,
      minImprovementThreshold, dustThreshold, max_def]
  · norm_num [processExistingPosition, samplePosition, mkAPYData, determineBestSplit,
      minImprovementThreshold, dustThreshold, max_def]

/-- C3 counterexample: a run whose best APY (5.5) is below the improvement
threshold leaves the database untouched; the stored APY is not refreshed. -/
theorem apy_refresh_skipped_counterexample :
    (processExistingPosition samplePosition (mkAPYData (11/2) 1) 100 7).dbWrite = none := by
  norm_num [processExistingPosition, samplePosition, mkAPYData, determineBestSplit,
    minImprovementThreshold, dustThreshold, max_def]

/-- C3 amended: the persisted apy and last_updated are overwritten only in
runs where the improvement reaches the threshold and the best split differs
from the persisted split (even if the zero-balance gate then skips the
on-chain write); in all other runs, including when the improvement is below
the threshold or the split already matches, no database write happens.
Whenever a row is written, its apy is the latest best APY with a fresh
last_updated. -/
theorem apy_refresh_only_on_rebalance_runs (pos : Position) (a : APYData)
    (bal : ℚ) (now : ℕ) :
    (((processExistingPosition pos a bal now).dbWrite).isSome = true ↔
      (minImprovementThreshold ≤ a.bestAPY - pos.apy ∧
       ¬(pos.split_mtoken = (determineBestSplit a.marketAPY a.vaultAPY).1 ∧
         pos.split_vault = (determineBestSplit a.marketAPY a.vaultAPY).2))) ∧
    (∀ q, (processExistingPosition pos a bal now).dbWrite = some q →
      q.apy = a.bestAPY ∧ q.last_updated = now) := by
  constructor
  · unfold processExistingPosition
    by_cases hmain : a.bestAPY - pos.apy ≥ minImprovementThreshold ∧
        ¬(pos.split_mtoken = (determineBestSplit a.marketAPY a.vaultAPY).1 ∧
          pos.split_vault = (determineBestSplit a.marketAPY a.vaultAPY).2)
    · rw [if_pos hmain]
      by_cases hbal : bal > dustThreshold
      · rw [if_pos hbal]
        simp [hmain.1, hmain.2]
      · rw [if_neg hbal]
        simp [hmain.1, hmain.2]
    · rw [if_neg hmain]
      simp only [Option.isSome_none, Bool.false_eq_true, false_iff]
      rintro ⟨hA, hB⟩
      exact hmain ⟨hA, hB⟩
  · intro q hq
    unfold processExistingPosition at hq
    by_cases hmain : a.bestAPY - pos.apy ≥ minImprovementThreshold ∧
        ¬(pos.split_mtoken = (determineBestSplit a.marketAPY a.vaultAPY).1 ∧
          pos.split_vault = (determineBestSplit a.marketAPY a.vaultAPY).2)
    · rw [if_pos hmain] at hq
      by_cases hbal : bal > dustThreshold
      · rw [if_pos hbal] at hq
        simp only [Option.some.injEq] at hq
        subst hq
        exact ⟨rfl, rfl⟩
      · rw [if_neg hbal] at hq
        simp only [Option.some.injEq] at hq
        subst hq
        exact ⟨rfl, rfl⟩
    · rw [if_neg hmain] at hq
      simp at hq

/-- Witness for `apy_refresh_only_on_rebalance_runs` at a run with best APY
7 against stored APY 5 and differing splits: the row is written and carries
apy 7 and the run timestamp. -/
theorem apy_refresh_only_on_rebalance_runs_witness :
    (((processExistingPosition samplePosition (mkAPYData 7 1) 100 9).dbWrite).isSome = true) ∧
    ((Position.mk 10000 0 "usdc_stablecoin" 7 9).apy = (mkAPYData 7 1).bestAPY ∧
     (Position.mk 10000 0 "usdc_stablecoin" 7 9).last_updated = 9) := by
  have h := apy_refresh_only_on_rebalance_runs samplePosition (mkAPYData 7 1) 100 9
  refine ⟨h.1.mpr ?_, h.2 _ ?_⟩
  · norm_num [samplePosition, mkAPYData, determineBestSplit, minImprovementThreshold, max_def]
  · norm_num [processExistingPosition, samplePosition, mkAPYData, determineBestSplit,
      minImprovementThreshold, dustThreshold, max_def]

/-- Position used in the C6 scenario: persisted split `{0,100}` with stored
APY 5.0, as in the spec's dust-gating scenario. -/
def dustScenarioPosition : Position :=
  { split_mtoken := 0, split_vault := 100, strategy_type := "usdc_stablecoin",
    apy := 5, last_updated := 0 }

/-- C6 counterexample: in the dust scenario (persisted `{0,100}`, APY 5.0,
market 6.3, vault 5.0) with a USDC balance of 0.3 units, the code issues an
`updatePosition(10000,0)` transaction: 0.3 passes the code's balance gate
`usdcBalance > 0`, so the rebalance is NOT dust-gated. -/
theorem dust_gate_counterexample :
    (processExistingPosition dustScenarioPosition (mkAPYData (63/10) 5) (3/10) 1).updatePositionTx =
      some (10000, 0) := by
  norm_num [processExistingPosition, dustScenarioPosition, mkAPYData, determineBestSplit,
    minImprovementThreshold, dustThreshold, max_def]

/-- C6 amended: the only dust gate in the code is `usdcBalance > 0`.  In the
scenario with balance 0.3 the persisted apy is updated to 6.3 AND the
rebalance transaction is issued, the persisted split becoming the best
split; only a balance of exactly 0 (as also reported when the balance fetch
fails) suppresses the transaction, and then the apy is still persisted as
6.3 with the split unchanged. -/
theorem dust_gate_zero_only :
    ((processExistingPosition dustScenarioPosition (mkAPYData (63/10) 5) (3/10) 1).dbWrite =
      some { split_mtoken := 10000, split_vault := 0, strategy_type := "usdc_stablecoin",
             apy := 63/10, last_updated := 1 }) ∧
    ((processExistingPosition dustScenarioPosition (mkAPYData (63/10) 5) 0 1).updatePositionTx = none) ∧
    ((processExistingPosition dustScenarioPosition (mkAPYData (63/10) 5) 0 1).dbWrite =
      some { split_mtoken := 0, split_vault := 100, strategy_type := "usdc_stablecoin",
             apy := 63/10, last_updated := 1 }) := by
  refine ⟨?_, ?_, ?_⟩ <;>
    norm_num [processExistingPosition, dustScenarioPosition, mkAPYData, determineBestSplit,
      minImprovementThreshold, dustThreshold, max_def]

/-- C5: on the first optimization run, the seeding branch issues the
`updatePosition` write whenever the USDC balance is positive, even when the
computed best split already equals the seeded on-chain split (here seed
`(10000,0)`, market 6 vs vault 5, balance 100): the code computes the
`currentSplitMatchesBest` flag but never consults it, so a no-op rebalance
transaction is issued. -/
theorem seeding_rebalance_ignores_matching_split :
    determineBestSplit 6 5 = (10000, 0) ∧
    (processNewPosition (10000, 0) (mkAPYData 6 5) 100 0).updatePositionTx = some (10000, 0) := by
  constructor <;>
    norm_num [processNewPosition, mkAPYData, determineBestSplit, dustThreshold, max_def]

/-- Absolute value taken of the Chainlink reading, from
`calculateTokenPriceInUsd` in `src/utils/cow-swap.ts`: the `answer` can be
negative and is flipped before use. -/
def absolutePriceUsd (tokenPriceUsd : ℤ) : ℤ :=
  if tokenPriceUsd < 0 then -tokenPriceUsd else tokenPriceUsd

/-- USD value of a raw token amount, from `calculateTokenPriceInUsd` in
`src/utils/cow-swap.ts` lines 63-65: BigInt arithmetic
`(amount * absolutePriceUsd) / 10n ** 18n`, the divisor hard-coded to
18 decimals by the code (its comment reads: assuming token has 18
decimals, price has 8 decimals). -/
def rewardsUsd (amount tokenPriceUsd : ℤ) : ℤ :=
  amount * absolutePriceUsd tokenPriceUsd / 10 ^ 18

/-- USD formula as the specification words it, dividing by ten to the
token's native decimal precision instead of the hard-coded 18. -/
def claimedRewardsUsd (amount tokenPriceUsd : ℤ) (tokenDecimals : ℕ) : ℤ :=
  amount * absolutePriceUsd tokenPriceUsd / 10 ^ tokenDecimals

/-- C7 counterexample: for a token with 6 native decimals, one whole token
(raw amount `10^6`) at oracle price `10^8` (one dollar at 8 oracle
decimals) is valued 0 by the code but `10^8` by the claim's formula: the
code divides by the hard-coded `10^18`, not by ten to the token's native
decimal precision. -/
theorem rewards_usd_decimals_counterexample :
    rewardsUsd (10 ^ 6) (10 ^ 8) = 0 ∧
    claimedRewardsUsd (10 ^ 6) (10 ^ 8) 6 = 10 ^ 8 ∧
    rewardsUsd (10 ^ 6) (10 ^ 8) ≠ claimedRewardsUsd (10 ^ 6) (10 ^ 8) 6 := by
  refine ⟨by decide, by decide, by decide⟩

/-- C7 amended: the valuation takes the absolute value of the oracle
reading and computes `usd = amount * abs(price) / 10^18`, with 18 decimals
hard-coded rather than the token's native precision; for every nonnegative
amount the result is nonnegative and insensitive to the sign of the
reading. -/
theorem rewards_usd_nonneg_abs (amount tokenPriceUsd : ℤ) (h : 0 ≤ amount) :
    0 ≤ rewardsUsd amount tokenPriceUsd ∧
    rewardsUsd amount tokenPriceUsd = rewardsUsd amount (-tokenPriceUsd) ∧
    rewardsUsd amount tokenPriceUsd = amount * |tokenPriceUsd| / 10 ^ 18 := by
  have habs : ∀ p : ℤ, absolutePriceUsd p = |p| := by
    intro p
    unfold absolutePriceUsd
    by_cases hp : p < 0
    · rw [if_pos hp, abs_of_neg hp]
    · rw [if_neg hp, abs_of_nonneg (not_lt.mp hp)]
  refine ⟨?_, ?_, ?_⟩
  · unfold rewardsUsd
    rw [habs]
    exact Int.ediv_nonneg (mul_nonneg h (abs_nonneg _)) (by positivity)
  · unfold rewardsUsd
    rw [habs, habs, abs_neg]
  · unfold rewardsUsd
    rw [habs]

/-- Witness for `rewards_usd_nonneg_abs` at amount 2, oracle price 3. -/
theorem rewards_usd_nonneg_abs_witness :
    (0 : ℤ) ≤ 2 ∧
    (0 ≤ rewardsUsd 2 3 ∧
     rewardsUsd 2 3 = rewardsUsd 2 (-3) ∧
     rewardsUsd 2 3 = 2 * |(3 : ℤ)| / 10 ^ 18) :=
  ⟨by norm_num, rewards_usd_nonneg_abs 2 3 (by norm_num)⟩

/-- Formatted USD value as parsed back by the callers: `rewardsUsd` carries
8 oracle decimals, so the dollar figure is `rewardsUsd / 10^8`
(`rewardsUsdFormatted` divided out with `toFixed(8)` in the source). -/
def rewardsUsdValue (amount tokenPriceUsd : ℤ) : ℚ :=
  (rewardsUsd amount tokenPriceUsd : ℚ) / 10 ^ 8

/-- Threshold gate of `claimRewards` in the strategy-processor module: the
claim transaction is sent exactly when the USD value of the pending reward
reaches the configured minimum. -/
def claimRewardsProceeds (amount tokenPriceUsd : ℤ) (minUsdValueThreshold : ℚ) : Bool :=
  decide (rewardsUsdValue amount tokenPriceUsd ≥ minUsdValueThreshold)

/-- Threshold gate of `createSwapOrder` in the strategy-processor module:
the quote/submission path runs exactly when the USD value of the held
balance reaches the configured minimum. -/
def createSwapOrderProceeds (tokenBalance tokenPriceUsd : ℤ) (minUsdValueThreshold : ℚ) : Bool :=
  decide (rewardsUsdValue tokenBalance tokenPriceUsd ≥ minUsdValueThreshold)

/-- C8: both the claim gate and the swap gate pass exactly when the
computed USD estimate is at least the configured minimum; a reward of one
18-decimals token at a one-dollar oracle reading is worth exactly the
1-dollar threshold and is claimed, while 0.99 tokens (one cent below) is
not. -/
theorem threshold_gate_spec :
    (∀ (amount tokenPriceUsd : ℤ) (t : ℚ),
      (claimRewardsProceeds amount tokenPriceUsd t = true ↔
        t ≤ rewardsUsdValue amount tokenPriceUsd) ∧
      (createSwapOrderProceeds amount tokenPriceUsd t = true ↔
        t ≤ rewardsUsdValue amount tokenPriceUsd)) ∧
    rewardsUsdValue (10 ^ 18) (10 ^ 8) = 1 ∧
    claimRewardsProceeds (10 ^ 18) (10 ^ 8) 1 = true ∧
    rewardsUsdValue (99 * 10 ^ 16) (10 ^ 8) = 1 - 1 / 100 ∧
    claimRewardsProceeds (99 * 10 ^ 16) (10 ^ 8) 1 = false := by
  have h1 : rewardsUsd (10 ^ 18) (10 ^ 8) = 10 ^ 8 := by decide
  have h2 : rewardsUsd (99 * 10 ^ 16) (10 ^ 8) = 99 * 10 ^ 6 := by decide
  have hv1 : rewardsUsdValue (10 ^ 18) (10 ^ 8) = 1 := by
    rw [rewardsUsdValue, h1]; norm_num
  have hv2 : rewardsUsdValue (99 * 10 ^ 16) (10 ^ 8) = 1 - 1 / 100 := by
    rw [rewardsUsdValue, h2]; norm_num
  refine ⟨?_, hv1, ?_, hv2, ?_⟩
  · intro amount tokenPriceUsd t
    constructor <;>
      simp [claimRewardsProceeds, createSwapOrderProceeds, ge_iff_le]
  · simp only [claimRewardsProceeds, decide_eq_true_eq, ge_iff_le, hv1]
    norm_num
  · simp only [claimRewardsProceeds, decide_eq_true_eq, ge_iff_le, hv2]
    norm_num

/-- Boolean check that `pat` occurs at the head of `s`, character by
character. -/
def listStartsWith : List Char → List Char → Bool
  | [], _ => true
  | _ :: _, [] => false
  | p :: ps, c :: cs => p == c && listStartsWith ps cs

/-- Boolean substring containment on character lists, scanning every start
offset of the haystack. -/
def listContainsSub (pat : List Char) : List Char → Bool
  | [] => pat.isEmpty
  | c :: cs => listStartsWith pat (c :: cs) || listContainsSub pat cs

/-- JavaScript `String.prototype.includes`, as used on the revert message
in `encodeOrderForSignature`. -/
def strIncludes (s pat : String) : Bool :=
  listContainsSub pat.data s.data

/-- Stale-oracle-heartbeat detection applied to the revert message of the
`isValidSignature` simulation, from `src/utils/cow-swap.ts` lines 174-177. -/
def staleHeartbeatMessage (msg : String) : Bool :=
  strIncludes msg "Price feed update time exceeds heartbeat" ||
  strIncludes msg "Price feed update time exceeds maximum valid time"

/-- Outcome of the `simulateContract` call on `isValidSignature`: either
the call succeeded with an optional return value (`none` models a missing
or undefined `result.result`), or it reverted with an error message
(`error.message`, defaulted to the empty string by the code). -/
inductive SimulateOutcome where
  | success (result : Option String)
  | revert (message : String)
deriving Repr, DecidableEq

/-- Validity flag produced by `encodeOrderForSignature` in
`src/utils/cow-swap.ts` lines 154-220: on success the returned value must
be present (truthy) and equal to the EIP-1271 magic constant; on a revert
whose message indicates a stale price-feed heartbeat the order is treated
as provisionally valid; every other revert (including the null-data and
decodable-error paths, which all fall through) yields invalid.  Callers
submit the order only when this flag is true. -/
def encodeOrderValidity : SimulateOutcome → Bool
  | .success (some r) => if r ≠ "" then r == MAGIC_VALUE else false
  | .success none => false
  | .revert msg => if staleHeartbeatMessage msg then true else false

/-- C4: the order is marked valid exactly when the `isValidSignature` call
returns the 4-byte magic constant or reverts with a stale-heartbeat
message; any other return value, a missing result, or any other revert
reason marks it invalid, and the callers skip submission on an invalid
flag. -/
theorem isValidSignature_classification (o : SimulateOutcome) :
    encodeOrderValidity o = true ↔
      (o = .success (some MAGIC_VALUE) ∨
       ∃ msg, o = .revert msg ∧ staleHeartbeatMessage msg = true) := by
  cases o with
  | success r =>
    cases r with
    | none => simp [encodeOrderValidity]
    | some s =>
      by_cases h : s = ""
      · subst h
        simp [encodeOrderValidity, MAGIC_VALUE]
      · simp [encodeOrderValidity, h]
  | revert m =>
    by_cases h : staleHeartbeatMessage m = true
    · simp [encodeOrderValidity, h]
    · simp [encodeOrderValidity, h, Bool.not_eq_true _ ▸ h]

/-- Canonical twelve-field order record, matching the tuple components of
the ABI encoding in `encodeOrderForSignature` (addresses and bytes32
values kept as strings, amounts as naturals). -/
structure OrderParams where
  sellToken : String
  buyToken : String
  receiver : String
  sellAmount : ℕ
  buyAmount : ℕ
  validTo : ℕ
  appData : String
  feeAmount : ℕ
  kind : String
  partiallyFillable : Bool
  sellTokenBalance : String
  buyTokenBalance : String
deriving Repr, DecidableEq

/-- Order record assembled by `encodeOrderForSignature` in
`src/utils/cow-swap.ts` lines 114-127 before ABI encoding: the first eight
fields are copied from the input parameters, while `kind`,
`partiallyFillable`, `sellTokenBalance` and `buyTokenBalance` are replaced
by the constants `KIND_SELL`, `false`, `ERC20_BALANCE`, `ERC20_BALANCE`. -/
def buildOrderTuple (params : OrderParams) : OrderParams :=
  { sellToken := params.sellToken,
    buyToken := params.buyToken,
    receiver := params.receiver,
    sellAmount := params.sellAmount,
    buyAmount := params.buyAmount,
    validTo := params.validTo,
    appData := params.appData,
    feeAmount := params.feeAmount,
    kind := KIND_SELL,
    partiallyFillable := false,
    sellTokenBalance := ERC20_BALANCE,
    buyTokenBalance := ERC20_BALANCE }

/-- C10: the encoded order always carries `kind = KIND_SELL`,
`partiallyFillable = false` and both balance fields equal to
`ERC20_BALANCE`, independently of the values of those four fields in the
input order, while the remaining eight fields are copied from the input. -/
theorem encoded_order_fixed_fields (p : OrderParams) (k : String) (b : Bool) (sb bb : String) :
    ((buildOrderTuple p).kind = KIND_SELL ∧
     (buildOrderTuple p).partiallyFillable = false ∧
     (buildOrderTuple p).sellTokenBalance = ERC20_BALANCE ∧
     (buildOrderTuple p).buyTokenBalance = ERC20_BALANCE) ∧
    buildOrderTuple { p with kind := k, partiallyFillable := b, sellTokenBalance := sb, buyTokenBalance := bb } = buildOrderTuple p ∧
    ((buildOrderTuple p).sellToken = p.sellToken ∧
     (buildOrderTuple p).buyToken = p.buyToken ∧
     (buildOrderTuple p).receiver = p.receiver ∧
     (buildOrderTuple p).sellAmount = p.sellAmount ∧
     (buildOrderTuple p).buyAmount = p.buyAmount ∧
     (buildOrderTuple p).validTo = p.validTo ∧
     (buildOrderTuple p).appData = p.appData ∧
     (buildOrderTuple p).feeAmount = p.feeAmount) :=
  ⟨⟨rfl, rfl, rfl, rfl⟩, rfl, rfl, rfl, rfl, rfl, rfl, rfl, rfl, rfl⟩

/-- Sell amount computed by the worker pipeline, from `src/index.ts` line
548: when the quote fee reaches the sell amount the code clamps the result
to the string zero and carries on building the order. -/
def indexSellAmountAfterFee (sellAmount feeAmount : ℕ) : ℕ :=
  if feeAmount ≥ sellAmount then 0 else sellAmount - feeAmount

/-- Order construction in the worker pipeline (`src/index.ts` lines
543-570): the order is always built, with the clamped sell amount. -/
def indexOrderSellAmount (sellAmount feeAmount : ℕ) : Option ℕ :=
  some (indexSellAmountAfterFee sellAmount feeAmount)

/-- Order construction in the cron pipeline (`cron.ts` lines 669-679):
when the quote fee reaches the sell amount the reward is skipped with
`continue` and no order is built; otherwise the order carries
`sellAmount - feeAmount`. -/
def cronOrderSellAmount (sellAmount feeAmount : ℕ) : Option ℕ :=
  if feeAmount ≥ sellAmount then none else some (sellAmount - feeAmount)

/-- C1 counterexample: in the worker pipeline, a quote with sell amount 3
and fee 5 does not abort order construction; the order is built with a
sell amount of exactly zero. -/
theorem fee_safety_counterexample :
    indexOrderSellAmount 3 5 = some 0 := by
  decide

/-- C1 amended: in the cron pipeline a fee at or above the sell amount
aborts order construction, and every order that is built carries the
positive sell amount `sellAmount - feeAmount`; the worker pipeline instead
never aborts and clamps the sell amount to zero when the fee reaches it. -/
theorem fee_safety_cron (sellAmount feeAmount : ℕ) :
    (cronOrderSellAmount sellAmount feeAmount = none ↔ sellAmount ≤ feeAmount) ∧
    (∀ s, cronOrderSellAmount sellAmount feeAmount = some s →
      0 < s ∧ s = sellAmount - feeAmount) ∧
    ((indexOrderSellAmount sellAmount feeAmount).isSome = true) ∧
    (sellAmount ≤ feeAmount → indexOrderSellAmount sellAmount feeAmount = some 0) := by
  unfold cronOrderSellAmount indexOrderSellAmount indexSellAmountAfterFee
  by_cases h : feeAmount ≥ sellAmount
  · simp [h, ge_iff_le]
  · simp [h, ge_iff_le]
    omega

/-- Witness for `fee_safety_cron` at sell amount 10 and fee 3: the order is
built and its sell amount 7 is positive. -/
theorem fee_safety_cron_witness :
    (cronOrderSellAmount 10 3 = none ↔ (10 : ℕ) ≤ 3) ∧ (0 < 7 ∧ 7 = 10 - 3) := by
  have h := fee_safety_cron 10 3
  exact ⟨h.1, h.2.1 7 (by decide)⟩
